import Mathlib

/-!
Verification of the ninja-rlm-chat-app backend core against its design notes.

This file gives a shallow embedding, in Lean 4, of the run log, run registry,
session store, progress bridge, background executor and streaming loop of the
backend (files backend/services/session_service.py, backend/services/rlm_service.py,
backend/services/progress_emitter.py, backend/api/routes/chat.py, backend/config.py),
and proves or refutes the documented properties of these components.

Modelling conventions, used throughout:
- Python strings are modelled as Lean String values; where character-level
  slicing matters (title derivation) they are modelled as List Char, matching
  the code-point semantics of Python slicing and len.
- datetime values are modelled as a Nat (the count of microseconds since the
  epoch).  The inverse pair datetime.isoformat / datetime.fromisoformat, an
  injective textual rendering living in the Python standard library, is
  modelled at that boundary as the decimal digit encoding of the Nat.
- Python dict objects keyed by strings (the session map, the run map, the
  on-disk store) are modelled as functions from String to Option values;
  assignment and deletion are pointwise updates.
- Mutation is modelled by explicit state passing: each method returns the
  updated object or service state.
- datetime.utcnow() is modelled by an explicit Nat parameter supplied at each
  call site, since the wall clock is an external input.
-/

/-- One structured progress event, as built by the backend.  In the code an
event is a dict with at least the keys type, timestamp, session_id and run_id;
the remaining type-specific string payload entries are kept in fields.  The
timestamp is kept as the underlying instant (see the conventions above). -/
structure Event where
  type : String
  timestamp : Nat
  session_id : String
  run_id : String
  fields : List (String × String)
deriving DecidableEq

/-- RunState (session_service.py, class RunState): the mutable state of one
run.  The field events models the private _events list (the EventLog); the
Lock only serialises access and has no sequential effect, so it is not
modelled. -/
structure RunState where
  run_id : String
  session_id : String
  message : String
  started_at : Nat
  completed : Bool
  error : Option String
  result : Option String
  events : List Event
deriving DecidableEq

/-- RunState.__init__: a fresh run has completed = False, no error, no result
and an empty event list. -/
def RunState.init (run_id session_id message : String) (started_at : Nat) : RunState :=
  { run_id := run_id, session_id := session_id, message := message,
    started_at := started_at, completed := false, error := none, result := none,
    events := [] }

/-- RunState.add_event: appends the event to the private _events list. -/
def RunState.add_event (run : RunState) (event : Event) : RunState :=
  { run with events := run.events ++ [event] }

/-- RunState.get_events: returns self._events[start_index:].copy(); the copy
is a snapshot and has no sequential effect. -/
def RunState.get_events (run : RunState) (start_index : Nat) : List Event :=
  run.events.drop start_index

/-- RunState.get_event_count: returns len(self._events). -/
def RunState.get_event_count (run : RunState) : Nat :=
  run.events.length

lemma foldl_add_event_events (es : List Event) (run : RunState) :
    (es.foldl RunState.add_event run).events = run.events ++ es := by
  induction es generalizing run with
  | nil => simp
  | cons e rest ih =>
      simp [List.foldl_cons, ih, RunState.add_event]

/-- C4: for every sequence of append calls on one EventLog (a fresh RunState,
whose _events list starts empty), get_events 0 afterwards returns exactly that
sequence in append order, and for every k, get_events k returns exactly the
suffix of the sequence starting at logical index k. -/
theorem C4_read_suffix (rid sid msg : String) (t0 : Nat) (es : List Event) (k : Nat) :
    (es.foldl RunState.add_event (RunState.init rid sid msg t0)).get_events 0 = es
    ∧ (es.foldl RunState.add_event (RunState.init rid sid msg t0)).get_events k = es.drop k := by
  constructor
  · simp [RunState.get_events, foldl_add_event_events, RunState.init]
  · simp [RunState.get_events, foldl_add_event_events, RunState.init]

/-- datetime.isoformat at the library boundary: an injective textual rendering
of the instant, modelled as its decimal digit encoding. -/
def isoformat (t : Nat) : List Nat :=
  Nat.digits 10 t

/-- datetime.fromisoformat at the library boundary: the parser inverse to
isoformat. -/
def fromisoformat (s : List Nat) : Nat :=
  Nat.ofDigits 10 s

/-- One entry of a ChatSession messages list: a dict with keys role, content,
timestamp and, when add_message was given a truthy run_id, run_id. -/
structure Message where
  role : String
  content : String
  timestamp : Nat
  run_id : Option String
deriving DecidableEq

/-- The persisted form of a message, produced by ChatSession.to_persist_dict:
identical except that the timestamp is in its textual (isoformat) form. -/
structure PMessage where
  role : String
  content : String
  timestamp : List Nat
  run_id : Option String
deriving DecidableEq

/-- ChatSession (session_service.py).  rlm_instance models the attached live
RLM worker handle (created on first use, not persisted); its only observable
state here is presence, so it is an Option Unit.  status holds the literal
string values active or ended, as in the code. -/
structure ChatSession where
  session_id : String
  model_id : String
  document_ids : List String
  title : Option String
  status : String
  created_at : Nat
  ended_at : Option Nat
  messages : List Message
  progress_events : List (String × List Event)
  rlm_instance : Option Unit
deriving DecidableEq

/-- ChatSession.__init__ with the default arguments: active status, no title,
no ended_at, empty message list and event archive, no live worker handle. -/
def ChatSession.init (session_id model_id : String) (document_ids : List String)
    (created_at : Nat) : ChatSession :=
  { session_id := session_id, model_id := model_id, document_ids := document_ids,
    title := none, status := "active", created_at := created_at, ended_at := none,
    messages := [], progress_events := [], rlm_instance := none }

/-- Python str.strip() on a character list: removes leading and trailing
whitespace.  The ASCII whitespace characters suffice for the inputs of this
backend. -/
def pyIsSpace (c : Char) : Bool :=
  c == ' ' || c == '\t' || c == '\n' || c == '\x0d' || c == '\x0b' || c == '\x0c'

/-- Python str.strip() on a character list. -/
def pyStrip (cs : List Char) : List Char :=
  ((cs.dropWhile pyIsSpace).reverse.dropWhile pyIsSpace).reverse

/-- Python s.rsplit(" ", 1)[0] on a character list: everything before the last
space, or the whole string when it contains no space. -/
def rsplitHead (cs : List Char) : List Char :=
  match cs.reverse.dropWhile (fun c => !(c == ' ')) with
  | [] => cs
  | _ :: rest => rest.reverse

/-- The three-character ellipsis marker appended by _generate_title. -/
def ellipsis : List Char :=
  ['.', '.', '.']

/-- ChatSession._generate_title: strip the content; if the stripped form is
longer than 50 characters, take its first 50 characters, cut back to before
the last space (rsplit), fall back to the first 50 raw characters of content
when that cut has fewer than 20 characters, and append the ellipsis marker;
otherwise return the stripped content. -/
def generate_title (content : List Char) : List Char :=
  let title := pyStrip content
  if 50 < title.length then
    let t1 := rsplitHead (title.take 50)
    let t2 := if t1.length < 20 then content.take 50 else t1
    t2 ++ ellipsis
  else title

/-- ChatSession.add_message: append the message dict (run_id key present only
when the run_id argument is truthy, i.e. a non-empty string), then, when no
title is set and the role is user, derive the title from the content.  Returns
the updated session and the message, as the method returns the message. -/
def ChatSession.add_message (s : ChatSession) (role content : String)
    (run_id : Option String) (now : Nat) : ChatSession × Message :=
  let message : Message :=
    { role := role, content := content, timestamp := now,
      run_id := match run_id with
        | some r => if r == "" then none else some r
        | none => none }
  let s1 := { s with messages := s.messages ++ [message] }
  let s2 :=
    if s1.title.isNone && (role == "user") then
      { s1 with title := some (String.mk (generate_title content.toList)) }
    else s1
  (s2, message)

/-- Dict assignment d[k] = v on an association-list representation of a
string-keyed dict: replace the binding when the key is present, else add it. -/
def alSet (l : List (String × α)) (k : String) (v : α) : List (String × α) :=
  match l with
  | [] => [(k, v)]
  | (k1, v1) :: rest => if k1 == k then (k, v) :: rest else (k1, v1) :: alSet rest k v

/-- ChatSession.add_progress_events: store the event sequence for the run
(dict assignment keyed by run_id). -/
def ChatSession.add_progress_events (s : ChatSession) (run_id : String)
    (events : List Event) : ChatSession :=
  { s with progress_events := alSet s.progress_events run_id events }

lemma dropWhile_head_false {p : Char → Bool} :
    ∀ {l : List Char} {x : Char} {rest : List Char},
      l.dropWhile p = x :: rest → p x = false := by
  intro l
  induction l with
  | nil => intro x rest h; simp [List.dropWhile] at h
  | cons a as ih =>
      intro x rest h
      rw [List.dropWhile_cons] at h
      split at h
      · exact ih h
      · rename_i hpa
        cases h
        simpa using hpa

lemma rsplitHead_eq_or_space (cs : List Char) :
    rsplitHead cs = cs ∨ ∃ tl, cs = rsplitHead cs ++ ' ' :: tl := by
  unfold rsplitHead
  cases h : cs.reverse.dropWhile (fun c => !(c == ' ')) with
  | nil => left; rfl
  | cons x rest =>
      right
      have hx : (!(x == ' ')) = false := dropWhile_head_false h
      have hx' : x = ' ' := by simpa using hx
      subst hx'
      have hsplit : cs.reverse.takeWhile (fun c => !(c == ' ')) ++ (' ' :: rest) = cs.reverse := by
        rw [← h]
        exact List.takeWhile_append_dropWhile _ _
      refine ⟨(cs.reverse.takeWhile (fun c => !(c == ' '))).reverse, ?_⟩
      have h2 := congrArg List.reverse hsplit
      simp only [List.reverse_append, List.reverse_cons, List.reverse_reverse,
        List.append_assoc, List.singleton_append] at h2
      exact h2.symm

lemma rsplitHead_length_le (cs : List Char) :
    (rsplitHead cs).length ≤ cs.length := by
  rcases rsplitHead_eq_or_space cs with h | ⟨tl, h⟩
  · rw [h]
  · calc (rsplitHead cs).length ≤ (rsplitHead cs).length + (1 + tl.length) := by omega
      _ = (rsplitHead cs ++ ' ' :: tl).length := by simp; omega
      _ = cs.length := by rw [← h]

/-- The persisted session record (one JSON file per session), with the exact
key set written by to_persist_dict.  Timestamps are in their textual form. -/
structure PersistRecord where
  session_id : String
  model_id : String
  document_ids : List String
  title : Option String
  status : String
  created_at : List Nat
  ended_at : Option (List Nat)
  messages : List PMessage
  progress_events : List (String × List Event)
deriving DecidableEq

/-- The per-message step of ChatSession.to_persist_dict: spread the dict and
replace the timestamp by its isoformat rendering (in memory the timestamp is
always a datetime, so the isinstance branch taken is the datetime one). -/
def Message.to_persist (m : Message) : PMessage :=
  { role := m.role, content := m.content, timestamp := isoformat m.timestamp,
    run_id := m.run_id }

/-- ChatSession.to_persist_dict: the persisted record.  ended_at uses the
conditional expression of the code (datetime values are always truthy, None is
falsy, hence Option.map); progress_events pass through unchanged. -/
def ChatSession.to_persist_dict (s : ChatSession) : PersistRecord :=
  { session_id := s.session_id, model_id := s.model_id,
    document_ids := s.document_ids, title := s.title, status := s.status,
    created_at := isoformat s.created_at,
    ended_at := s.ended_at.map isoformat,
    messages := s.messages.map Message.to_persist,
    progress_events := s.progress_events }

/-- The per-message step of ChatSession.from_persist_dict: parse the timestamp
back (persisted timestamps are strings, so the isinstance branch taken is the
string one). -/
def PMessage.from_persist (m : PMessage) : Message :=
  { role := m.role, content := m.content, timestamp := fromisoformat m.timestamp,
    run_id := m.run_id }

/-- ChatSession.from_persist_dict: rebuild the session through the class
constructor; rlm_instance is therefore reset to None.  The isoformat of a
datetime is never the empty string, so the truthiness test on ended_at is
modelled as presence. -/
def ChatSession.from_persist_dict (d : PersistRecord) : ChatSession :=
  { session_id := d.session_id, model_id := d.model_id,
    document_ids := d.document_ids, title := d.title, status := d.status,
    created_at := fromisoformat d.created_at,
    ended_at := d.ended_at.map fromisoformat,
    messages := d.messages.map PMessage.from_persist,
    progress_events := d.progress_events, rlm_instance := none }

lemma fromisoformat_isoformat (t : Nat) : fromisoformat (isoformat t) = t := by
  simp [fromisoformat, isoformat, Nat.ofDigits_digits]

lemma message_roundtrip (m : Message) : (m.to_persist).from_persist = m := by
  cases m
  simp [Message.to_persist, PMessage.from_persist, fromisoformat_isoformat]

lemma messages_roundtrip (ms : List Message) :
    (ms.map Message.to_persist).map PMessage.from_persist = ms := by
  induction ms with
  | nil => rfl
  | cons m rest ih => simp [ih, message_roundtrip]

/-- C7: session persistence round-trips losslessly.  For every session,
from_persist_dict applied to to_persist_dict yields a session equal to the
original in every persisted field (identity, model, documents, title, status,
both timestamps, the full message list with timestamps and optional run ids,
and the archived per-run event lists); only the non-persisted live worker
handle is reset. -/
theorem C7_persist_roundtrip (s : ChatSession) :
    ChatSession.from_persist_dict s.to_persist_dict = { s with rlm_instance := none } := by
  cases s with
  | mk sid mid docs title status created ended msgs pev rlm =>
      simp only [ChatSession.to_persist_dict, ChatSession.from_persist_dict,
        fromisoformat_isoformat, messages_roundtrip]
      cases ended <;> simp [fromisoformat_isoformat]

/-- C8 as stated is refuted at two concrete inputs.  First, content of 50
characters or fewer is not stored verbatim: the title is the stripped content
(leading whitespace is removed).  Second, for spaceless content longer than
50 characters the title is a mid-word hard cut of 50 characters plus the
ellipsis even though that cut keeps 50 (at least 20) characters, so the
hard-cut exception of the claim does not license it: the character of the
content right after the cut is a letter, not a space. -/
theorem C8_counterexample :
    generate_title " hi".toList ≠ " hi".toList
    ∧ generate_title (List.replicate 60 'a') = List.replicate 50 'a' ++ ellipsis
    ∧ (List.replicate 60 'a').get? 50 = some 'a'
    ∧ ('a' : Char) ≠ ' '
    ∧ 20 ≤ (List.replicate 50 'a').length := by
  refine ⟨by decide, by decide, by decide, by decide, by decide⟩

/-- C8 amended: the title derived from the first user message satisfies: when
the stripped content has at most 50 characters, the title is the stripped
content (verbatim up to stripping); when the stripped content is longer than
50 characters, the title has at most 53 characters and is a cut of at most 50
characters followed by the ellipsis marker, where the cut is the part of the
first 50 stripped characters before their last space (hence either the whole
50-character prefix, when it has no space, or a cut at a word boundary)
whenever that part keeps at least 20 characters, and otherwise is a hard cut
of the first 50 raw characters of the content; and a session whose title is
already set never has it mutated by a later add_message call. -/
theorem C8_title_derivation (content : List Char) (s : ChatSession) (t : String)
    (role content2 : String) (rid : Option String) (now : Nat) :
    ((pyStrip content).length ≤ 50 → generate_title content = pyStrip content)
    ∧ (50 < (pyStrip content).length →
        (generate_title content).length ≤ 53
        ∧ (∃ pre, generate_title content = pre ++ ellipsis
            ∧ pre.length ≤ 50
            ∧ (20 ≤ (rsplitHead ((pyStrip content).take 50)).length →
                pre = rsplitHead ((pyStrip content).take 50)
                ∧ (pre = (pyStrip content).take 50
                   ∨ ∃ tl, (pyStrip content).take 50 = pre ++ ' ' :: tl))
            ∧ ((rsplitHead ((pyStrip content).take 50)).length < 20 →
                pre = content.take 50)))
    ∧ (s.title = some t → ((s.add_message role content2 rid now).1).title = some t) := by
  refine ⟨?_, ?_, ?_⟩
  · intro hle
    unfold generate_title
    rw [if_neg (by omega)]
  · intro hgt
    have hsplit := rsplitHead_eq_or_space ((pyStrip content).take 50)
    have hlen1 : (rsplitHead ((pyStrip content).take 50)).length ≤ 50 := by
      have h1 := rsplitHead_length_le ((pyStrip content).take 50)
      have h2 : ((pyStrip content).take 50).length ≤ 50 := by
        simp [List.length_take]
      omega
    unfold generate_title
    rw [if_pos (by omega)]
    dsimp only
    by_cases hshort : (rsplitHead ((pyStrip content).take 50)).length < 20
    · rw [if_pos hshort]
      have hct : (content.take 50).length ≤ 50 := by
        simp [List.length_take]
      refine ⟨?_, content.take 50, rfl, hct, ?_, fun _ => rfl⟩
      · simp [ellipsis]
      · intro h20
        omega
    · rw [if_neg hshort]
      refine ⟨?_, rsplitHead ((pyStrip content).take 50), rfl, hlen1, ?_, ?_⟩
      · simp [ellipsis]
        omega
      · intro _
        exact ⟨rfl, hsplit⟩
      · intro h
        omega
  · intro hsome
    simp [ChatSession.add_message, hsome]

/-- Concrete content for the C8 witness, the input named by the design
notes. -/
def titleWitnessContent : List Char :=
  "Tell me about the quarterly earnings report for Q3 and its implications".toList

/-- Concrete session with a title already set, for the C8 witness. -/
def titleWitnessSession : ChatSession :=
  { ChatSession.init "s1" "claude-opus-4-5-20251101" [] 0 with title := some "t" }

/-- Witness for C8 amended at the concrete input of the design notes: the
derived title has at most 53 characters, and a later message does not mutate
an already-set title. -/
theorem C8_title_derivation_witness :
    (generate_title titleWitnessContent).length ≤ 53
    ∧ ((titleWitnessSession.add_message "user" "more" none 5).1).title = some "t" := by
  have h := C8_title_derivation titleWitnessContent titleWitnessSession "t" "user" "more" none 5
  exact ⟨(h.2.1 (by decide)).1, h.2.2 rfl⟩

/-- Pointwise lookup map model of a Python dict keyed by strings. -/
def StrMap (α : Type) : Type :=
  String → Option α

/-- Dict assignment d[k] = v. -/
def mapSet (m : StrMap α) (k : String) (v : α) : StrMap α :=
  fun x => if x = k then some v else m x

/-- Dict deletion del d[k]. -/
def mapRemove (m : StrMap α) (k : String) : StrMap α :=
  fun x => if x = k then none else m x

/-- The empty dict. -/
def mapEmpty : StrMap α :=
  fun _ => none

/-- SessionService (session_service.py): the in-memory session map _sessions,
the run registry _runs, and the durable on-disk store (one JSON record per
session id, written by _persist_session and removed by
_delete_persisted_session).  The Lock only serialises access and has no
sequential effect. -/
structure ServiceState where
  sessions : StrMap ChatSession
  runs : StrMap RunState
  disk : StrMap PersistRecord

/-- A SessionService with no sessions, no runs and an empty disk store. -/
def ServiceState.empty : ServiceState :=
  { sessions := mapEmpty, runs := mapEmpty, disk := mapEmpty }

/-- SessionService.create_run: register a fresh RunState under a new unique
run id (uuid4, modelled as an externally supplied fresh identifier). -/
def create_run (st : ServiceState) (run_id session_id message : String)
    (now : Nat) : ServiceState × RunState :=
  let run := RunState.init run_id session_id message now
  ({ st with runs := mapSet st.runs run_id run }, run)

/-- SessionService.get_run: dict lookup. -/
def get_run (st : ServiceState) (run_id : String) : Option RunState :=
  st.runs run_id

/-- The field updates complete_run performs on a run it found: completed is
set to True and result and error are overwritten with the arguments (result
and error default to None in Python when not passed). -/
def RunState.complete_fields (run : RunState) (result error : Option String) : RunState :=
  { run with completed := true, result := result, error := error }

/-- SessionService.complete_run: look the run up; when absent do nothing,
otherwise set completed, result and error unconditionally. -/
def complete_run (st : ServiceState) (run_id : String)
    (result error : Option String) : ServiceState :=
  match st.runs run_id with
  | none => st
  | some run =>
      { st with runs := mapSet st.runs run_id (run.complete_fields result error) }

/-- SessionService.end_session: absent session yields False; otherwise the
live worker handle is torn down (close errors swallowed, handle cleared),
then a session with no messages is deleted from the map and from disk, and a
session with messages is marked ended with ended_at = now and persisted. -/
def end_session (st : ServiceState) (session_id : String) (now : Nat) :
    ServiceState × Bool :=
  match st.sessions session_id with
  | none => (st, false)
  | some session =>
      let session1 := { session with rlm_instance := none }
      if session1.messages.length = 0 then
        ({ st with sessions := mapRemove st.sessions session_id,
                   disk := mapRemove st.disk session_id }, true)
      else
        let session2 := { session1 with status := "ended", ended_at := some now }
        ({ st with sessions := mapSet st.sessions session_id session2,
                   disk := mapSet st.disk session_id session2.to_persist_dict }, true)

/-- RLMService.cancel_run: look the run up; when it exists and is not yet
completed, complete it with error Cancelled by user (result defaults to None)
and return True; otherwise return False. -/
def cancel_run (st : ServiceState) (run_id : String) : ServiceState × Bool :=
  match get_run st run_id with
  | some run =>
      if run.completed then (st, false)
      else (complete_run st run_id none (some "Cancelled by user"), true)
  | none => (st, false)

lemma mapSet_same (m : StrMap α) (k : String) (v : α) : mapSet m k v k = some v := by
  simp [mapSet]

lemma mapRemove_same (m : StrMap α) (k : String) : mapRemove m k k = none := by
  simp [mapRemove]

/-- C10: complete_run called with a run id not present in the run registry is
a silent no-op: the service state (every registered run, every session, the
disk store) is returned unchanged, and no exception path exists. -/
theorem C10_complete_run_missing (st : ServiceState) (run_id : String)
    (result error : Option String) (h : st.runs run_id = none) :
    complete_run st run_id result error = st := by
  unfold complete_run
  rw [h]

/-- Concrete state for the C10 witness: a service with no runs at all. -/
theorem C10_complete_run_missing_witness :
    complete_run ServiceState.empty "r77" (some "out") none = ServiceState.empty :=
  C10_complete_run_missing ServiceState.empty "r77" (some "out") none rfl

/-- Concrete incomplete run and service state used by the C1 and C9
witnesses and the C1 counterexample. -/
def runA : RunState :=
  RunState.init "r1" "s1" "what is in the report" 3

/-- Service state holding exactly the run runA. -/
def stA : ServiceState :=
  { sessions := mapEmpty, runs := mapSet mapEmpty "r1" runA, disk := mapEmpty }

/-- C1 as stated is false: complete_run is not idempotent and not
first-writer-wins.  In the concrete state stA, completing run r1 first with
result first and then again with result second leaves the recorded result
equal to second, not first: the second call overwrote the fields set by the
first call. -/
theorem C1_counterexample :
    ((complete_run (complete_run stA "r1" (some "first") none)
        "r1" (some "second") none).runs "r1").map RunState.result
      = some (some "second")
    ∧ (some (some "second") : Option (Option String)) ≠ some (some "first") := by
  constructor
  · rfl
  · decide

/-- C1 amended: complete_run is last-writer-wins.  For every run present in
the registry, after a first complete_run call, a second complete_run call on
the same run id overwrites the recorded result and error with the second
arguments of the second call (and completed stays true); every other field of the run is
unchanged. -/
theorem C1_last_writer_wins (st : ServiceState) (run_id : String) (run : RunState)
    (r1 e1 r2 e2 : Option String) (h : st.runs run_id = some run) :
    (complete_run (complete_run st run_id r1 e1) run_id r2 e2).runs run_id
      = some (run.complete_fields r2 e2) := by
  unfold complete_run
  rw [h]
  simp only [mapSet_same]
  simp [RunState.complete_fields, mapSet]

/-- Witness for C1 amended at the concrete state stA. -/
theorem C1_last_writer_wins_witness :
    (complete_run (complete_run stA "r1" (some "first") none)
        "r1" (some "second") none).runs "r1"
      = some (runA.complete_fields (some "second") none) :=
  C1_last_writer_wins stA "r1" runA (some "first") none (some "second") none rfl

/-- C9: cancel_run returns True exactly when a run with that id exists and
its completed flag is False; in that case the run is re-registered completed
with error Cancelled by user and no result; in every other case (unknown run
id, or run already completed) the whole service state is returned
unchanged. -/
theorem C9_cancel_run (st : ServiceState) (run_id : String) :
    ((cancel_run st run_id).2 = true
      ↔ ∃ run, st.runs run_id = some run ∧ run.completed = false)
    ∧ (∀ run, st.runs run_id = some run → run.completed = false →
        (cancel_run st run_id).1.runs run_id
          = some (run.complete_fields none (some "Cancelled by user")))
    ∧ ((cancel_run st run_id).2 = false → (cancel_run st run_id).1 = st) := by
  refine ⟨?_, ?_, ?_⟩
  · constructor
    · intro htrue
      cases h : st.runs run_id with
      | none => simp [cancel_run, get_run, h] at htrue
      | some run =>
          by_cases hc : run.completed
          · simp [cancel_run, get_run, h, hc] at htrue
          · exact ⟨run, rfl, by simpa using hc⟩
    · rintro ⟨run, h, hc⟩
      simp [cancel_run, get_run, h, hc]
  · intro run h hcomp
    simp [cancel_run, get_run, complete_run, h, hcomp, mapSet]
  · cases h : st.runs run_id with
    | none => intro _; simp [cancel_run, get_run, h]
    | some run =>
        by_cases hc : run.completed
        · intro _; simp [cancel_run, get_run, h, hc]
        · intro hfalse
          exfalso
          simp [cancel_run, get_run, h, hc] at hfalse

/-- Witness for C9 at the concrete state stA: cancelling the incomplete run
r1 reports True and records the cancellation error with no result. -/
theorem C9_cancel_run_witness :
    (cancel_run stA "r1").2 = true
    ∧ (cancel_run stA "r1").1.runs "r1"
        = some (runA.complete_fields none (some "Cancelled by user")) := by
  constructor
  · exact (C9_cancel_run stA "r1").1.mpr ⟨runA, rfl, rfl⟩
  · exact (C9_cancel_run stA "r1").2.1 runA rfl rfl

/-- C6: for every existing session, end_session with zero messages deletes
the session entirely from both the in-memory map and the durable store
(after tearing down any attached live worker handle, with teardown errors
swallowed), returning True; end_session with at least one message instead
re-registers the session with status ended and a non-null ended_at = now,
with the worker handle torn down, persists exactly that session record to the
durable store, and returns True. -/
theorem C6_end_session (st : ServiceState) (session_id : String)
    (s : ChatSession) (now : Nat) (h : st.sessions session_id = some s) :
    (s.messages = [] →
      (end_session st session_id now).1.sessions session_id = none
      ∧ (end_session st session_id now).1.disk session_id = none
      ∧ (end_session st session_id now).2 = true)
    ∧ (s.messages ≠ [] →
      (end_session st session_id now).1.sessions session_id
        = some { s with rlm_instance := none, status := "ended", ended_at := some now }
      ∧ (end_session st session_id now).1.disk session_id
        = some (ChatSession.to_persist_dict
            { s with rlm_instance := none, status := "ended", ended_at := some now })
      ∧ (end_session st session_id now).2 = true) := by
  constructor
  · intro hempty
    have hlen : ({ s with rlm_instance := none } : ChatSession).messages.length = 0 := by
      simp [hempty]
    simp [end_session, h, hlen, mapRemove]
  · intro hne
    have hlen : ¬ ({ s with rlm_instance := none } : ChatSession).messages.length = 0 := by
      simpa using hne
    simp [end_session, h, hlen, mapSet]

/-- Concrete session with no messages, for the C6 witness. -/
def emptySession : ChatSession :=
  { ChatSession.init "s-empty" "claude-opus-4-5-20251101" [] 1 with rlm_instance := some () }

/-- Concrete session with one message, for the C6 witness. -/
def busySession : ChatSession :=
  { ChatSession.init "s-busy" "claude-opus-4-5-20251101" ["d1"] 1 with
    title := some "hello",
    messages := [{ role := "user", content := "hello", timestamp := 2, run_id := none }] }

/-- Concrete service state holding emptySession and busySession, each also
persisted on disk, for the C6 witness. -/
def stSessions : ServiceState :=
  { sessions := mapSet (mapSet mapEmpty "s-empty" emptySession) "s-busy" busySession,
    runs := mapEmpty,
    disk := mapSet (mapSet mapEmpty "s-empty" emptySession.to_persist_dict)
      "s-busy" busySession.to_persist_dict }

/-- Witness for C6 at the concrete state stSessions: ending the messageless
session removes it from memory and disk; ending the session with one message
keeps it, ended, with ended_at set. -/
theorem C6_end_session_witness :
    ((end_session stSessions "s-empty" 9).1.sessions "s-empty" = none
      ∧ (end_session stSessions "s-empty" 9).1.disk "s-empty" = none
      ∧ (end_session stSessions "s-empty" 9).2 = true)
    ∧ ((end_session stSessions "s-busy" 9).1.sessions "s-busy"
        = some { busySession with rlm_instance := none, status := "ended", ended_at := some 9 }
      ∧ (end_session stSessions "s-busy" 9).1.disk "s-busy"
        = some (ChatSession.to_persist_dict
            { busySession with rlm_instance := none, status := "ended", ended_at := some 9 })
      ∧ (end_session stSessions "s-busy" 9).2 = true) := by
  constructor
  · exact (C6_end_session stSessions "s-empty" emptySession 9 rfl).1 rfl
  · exact (C6_end_session stSessions "s-busy" busySession 9 rfl).2 (by decide)

/-- Settings (config.py): the credential-relevant fields.  Unset environment
variables give the empty string for the two direct keys and None for the two
proxy fields, as in the code defaults. -/
structure Settings where
  anthropic_api_key : String
  openai_api_key : String
  anthropic_base_url : Option String
  anthropic_auth_token : Option String
deriving DecidableEq

/-- Python truthiness of an optional string: None and the empty string are
falsy. -/
def optStrTruthy : Option String → Bool
  | some s => !(s == "")
  | none => false

/-- Settings.validate_api_key: for openai, a non-empty key different from the
placeholder; for anthropic, either such a direct key or a configured proxy
(base url and auth token both truthy). -/
def Settings.validate_api_key (s : Settings) (provider : String) : Bool :=
  if provider == "openai" then
    !(s.openai_api_key == "") && !(s.openai_api_key == "your-api-key-here")
  else
    let has_direct_key :=
      !(s.anthropic_api_key == "") && !(s.anthropic_api_key == "your-api-key-here")
    let has_proxy_config :=
      optStrTruthy s.anthropic_base_url && optStrTruthy s.anthropic_auth_token
    has_direct_key || has_proxy_config

/-- One entry of AVAILABLE_MODELS (config.py).  The purely presentational
description string of each entry is omitted; nothing reads it. -/
structure ModelInfo where
  id : String
  name : String
  provider : String
deriving DecidableEq

/-- AVAILABLE_MODELS (config.py): the model catalog. -/
def AVAILABLE_MODELS : List ModelInfo :=
  [ { id := "claude-sonnet-4-5-20250929", name := "Claude Sonnet 4.5",
      provider := "anthropic" },
    { id := "claude-opus-4-5-20251101", name := "Claude Opus 4.5",
      provider := "anthropic" },
    { id := "gpt-5.2-2025-12-11", name := "GPT-5.2",
      provider := "openai" },
    { id := "gpt-5-mini", name := "GPT-5 Mini",
      provider := "openai" },
    { id := "gpt-5-nano-2025-08-07", name := "GPT-5 Nano",
      provider := "openai" } ]

/-- get_model_provider (config.py): the catalog provider of the model id,
defaulting to anthropic for unknown models. -/
def get_model_provider (model_id : String) : String :=
  match AVAILABLE_MODELS.find? (fun m => m.id == model_id) with
  | some m => m.provider
  | none => "anthropic"

/-- The message of the ValueError raised at the top of
RLMService._execute_inference when the provider key is missing. -/
def missingKeyMessage (provider : String) : String :=
  if provider == "openai" then
    "OpenAI API key not configured. Set OPENAI_API_KEY in .env"
  else
    "Anthropic API key not configured. Set ANTHROPIC_API_KEY in .env"

/-- RLMService._execute_inference: determine the provider and validate the
key first; an invalid key raises (an error value) before anything touches the
run or its EventLog.  The remainder of the method (logger and printer setup,
document context, the RLM completion, completion of the run, message
appending, archiving) runs only after this gate and is abstracted as the
worker argument, which maps the run state to its final state together with
either the normal result or the text of an uncaught exception. -/
def execute_inference (cfg : Settings) (model_id : String) (run : RunState)
    (worker : RunState → RunState × Except String String) :
    RunState × Except String String :=
  let provider := get_model_provider model_id
  if !(cfg.validate_api_key provider) then
    (run, Except.error (missingKeyMessage provider))
  else
    worker run

/-- The run_thread closure inside RLMService.run_inference: run
_execute_inference; on any exception build an error event (type error, code
INFERENCE_ERROR, the exception text and traceback), append it to the EventLog of the
run, and complete the run with that error (result defaults to None).
err_ts is the utcnow() at the exception handler; tb the formatted
traceback. -/
def run_thread (cfg : Settings) (model_id : String) (run : RunState)
    (worker : RunState → RunState × Except String String)
    (session_id : String) (err_ts : Nat) (tb : String) : RunState :=
  match execute_inference cfg model_id run worker with
  | (run1, Except.ok _) => run1
  | (run1, Except.error e) =>
      let error_event : Event :=
        { type := "error", timestamp := err_ts, session_id := session_id,
          run_id := run.run_id,
          fields := [("message", e), ("code", "INFERENCE_ERROR"), ("traceback", tb)] }
      (run1.add_event error_event).complete_fields none (some e)

/-- The observable outcome of RLMService.run_inference for the submitting
caller and for the run: whether an exception reached the caller
synchronously, whether a background thread was spawned, and the run state
once the background thread has finished. -/
structure InferenceOutcome where
  raisedToCaller : Option String
  spawned : Bool
  runAfter : RunState
deriving DecidableEq

/-- RLMService.run_inference: defines the emit and run_thread closures, then
unconditionally starts the background thread and returns None to the caller;
no validation happens on the submitting path.  The background-thread
sequential effect on the run is run_thread. -/
def run_inference (cfg : Settings) (model_id : String) (run : RunState)
    (worker : RunState → RunState × Except String String)
    (session_id : String) (err_ts : Nat) (tb : String) : InferenceOutcome :=
  { raisedToCaller := none, spawned := true,
    runAfter := run_thread cfg model_id run worker session_id err_ts tb }

/-- Settings with no credentials at all, for the C2 theorems. -/
def cfgNoKeys : Settings :=
  { anthropic_api_key := "", openai_api_key := "",
    anthropic_base_url := none, anthropic_auth_token := none }

/-- A fresh run for the C2 theorems. -/
def runC2 : RunState :=
  RunState.init "r2" "s2" "summarise the document" 0

/-- A worker that would succeed; it is never reached when the key check
fails. -/
def workerOk : RunState → RunState × Except String String :=
  fun r => (r, Except.ok "unreached")

/-- C2 as stated is false at the concrete unconfigured Settings cfgNoKeys:
submitting with no valid provider key still spawns the background execution,
surfaces nothing synchronously to the caller (raisedToCaller = none), and the
missing-credentials error IS appended to the EventLog of the run as an error
event. -/
theorem C2_counterexample :
    (run_inference cfgNoKeys "claude-opus-4-5-20251101" runC2 workerOk "s2" 7 "tb").spawned = true
    ∧ (run_inference cfgNoKeys "claude-opus-4-5-20251101" runC2 workerOk "s2" 7 "tb").raisedToCaller = none
    ∧ ((run_inference cfgNoKeys "claude-opus-4-5-20251101" runC2 workerOk "s2" 7 "tb").runAfter.events.map
        Event.type) = ["error"] := by
  refine ⟨rfl, rfl, ?_⟩
  rfl

/-- C2 amended: when the model of the session has no valid provider key, the
executor still spawns the background execution and returns normally to the
submitting caller; the configuration failure is handled inside the background
thread, which appends exactly one error event (code INFERENCE_ERROR, carrying
the missing-key message) to the EventLog of the run and completes the run with
that error and no result. -/
theorem C2_background_config_error (cfg : Settings) (model_id : String)
    (run : RunState) (worker : RunState → RunState × Except String String)
    (session_id : String) (err_ts : Nat) (tb : String)
    (h : cfg.validate_api_key (get_model_provider model_id) = false) :
    (run_inference cfg model_id run worker session_id err_ts tb).spawned = true
    ∧ (run_inference cfg model_id run worker session_id err_ts tb).raisedToCaller = none
    ∧ (run_inference cfg model_id run worker session_id err_ts tb).runAfter.events
      = run.events ++
        [{ type := "error", timestamp := err_ts, session_id := session_id,
           run_id := run.run_id,
           fields := [("message", missingKeyMessage (get_model_provider model_id)),
                      ("code", "INFERENCE_ERROR"), ("traceback", tb)] }]
    ∧ (run_inference cfg model_id run worker session_id err_ts tb).runAfter.completed = true
    ∧ (run_inference cfg model_id run worker session_id err_ts tb).runAfter.error
      = some (missingKeyMessage (get_model_provider model_id))
    ∧ (run_inference cfg model_id run worker session_id err_ts tb).runAfter.result = none := by
  refine ⟨rfl, rfl, ?_, ?_, ?_, ?_⟩ <;>
    simp [run_inference, run_thread, execute_inference, h,
      RunState.add_event, RunState.complete_fields]

/-- Witness for C2 amended at the concrete unconfigured Settings. -/
theorem C2_background_config_error_witness :
    (run_inference cfgNoKeys "claude-opus-4-5-20251101" runC2 workerOk "s2" 7 "tb").runAfter.completed = true
    ∧ (run_inference cfgNoKeys "claude-opus-4-5-20251101" runC2 workerOk "s2" 7 "tb").runAfter.error
      = some (missingKeyMessage (get_model_provider "claude-opus-4-5-20251101")) := by
  have h := C2_background_config_error cfgNoKeys "claude-opus-4-5-20251101" runC2 workerOk "s2" 7 "tb"
    (by decide)
  exact ⟨h.2.2.2.1, h.2.2.2.2.1⟩

/-- The _make_event helper shared by WebProgressLogger and WebProgressPrinter
(progress_emitter.py): builds the event dict as a literal whose base entries
(type, server utcnow timestamp, session_id, run_id) come first and whose
type-specific keyword arguments are spread afterwards.  A dict literal is
right-biased, so a timestamp entry among the keyword arguments replaces the
server one; kw_ts models that possible entry, and the remaining keyword
payload is kwargs. -/
def make_event (session_id run_id : String) (event_type : String)
    (server_ts : Nat) (kwargs : List (String × String)) (kw_ts : Option Nat) : Event :=
  { type := event_type, timestamp := kw_ts.getD server_ts,
    session_id := session_id, run_id := run_id, fields := kwargs }

/-- The emit_event callback defined inside RLMService.run_inference: it
appends the event to the EventLog of the run (run.add_event), once, unchanged. -/
def emit_event (run : RunState) (event : Event) : RunState :=
  run.add_event event

/-- One call of a worker-facing logger or printer method, reduced to what it
feeds _make_event: the event type, the server clock reading at that call, the
keyword payload, and the timestamp entry of the payload when the caller
supplies one. -/
structure EmitCall where
  event_type : String
  server_ts : Nat
  kwargs : List (String × String)
  kw_ts : Option Nat
deriving DecidableEq

/-- A sequence of progress-bridge emissions for one run: each call builds its
event with _make_event and pushes it through emit_event. -/
def emit_all (session_id run_id : String) (calls : List EmitCall)
    (run : RunState) : RunState :=
  calls.foldl
    (fun r c => emit_event r (make_event session_id run_id c.event_type c.server_ts c.kwargs c.kw_ts))
    run

/-- C3 as stated is false at a concrete emission: since the keyword payload
is spread after the server timestamp in the dict literal, a caller-supplied
timestamp (3) replaces the server-assigned one (11), the reverse of the
claimed override; a log receiving a default-stamped event at server time 10
followed by such a caller-stamped event has timestamps [10, 3], which is not
monotonically non-decreasing. -/
theorem C3_counterexample :
    (make_event "s" "r" "llm_response" 11 [] (some 3)).timestamp = 3
    ∧ (make_event "s" "r" "llm_response" 11 [] (some 3)).timestamp ≠ 11
    ∧ ((emit_all "s" "r"
        [{ event_type := "session_start", server_ts := 10, kwargs := [], kw_ts := none },
         { event_type := "llm_response", server_ts := 11, kwargs := [], kw_ts := some 3 }]
        (RunState.init "r" "s" "q" 0)).events.map Event.timestamp) = [10, 3]
    ∧ ¬ (10 ≤ 3) := by
  refine ⟨rfl, by decide, rfl, by decide⟩

lemma emit_all_eq_foldl (sid rid : String) (calls : List EmitCall) (run : RunState) :
    emit_all sid rid calls run
      = (calls.map (fun c => make_event sid rid c.event_type c.server_ts c.kwargs c.kw_ts)).foldl
          RunState.add_event run := by
  rw [List.foldl_map]
  rfl

lemma map_make_event_timestamp (sid rid : String) (calls : List EmitCall)
    (hnone : ∀ c ∈ calls, c.kw_ts = none) :
    (calls.map (fun c => make_event sid rid c.event_type c.server_ts c.kwargs c.kw_ts)).map
        Event.timestamp
      = calls.map EmitCall.server_ts := by
  induction calls with
  | nil => rfl
  | cons c rest ih =>
      have hc : c.kw_ts = none := hnone c (by simp)
      have hrest : ∀ c ∈ rest, c.kw_ts = none := fun x hx => hnone x (by simp [hx])
      simp only [List.map_cons]
      rw [ih hrest]
      simp [make_event, hc]

/-- C3 amended: every event pushed through the progress-bridge emit path is
appended to the EventLog of the run exactly once, in call order; but the server
timestamp of _make_event is only a default, and the timestamps of the log are
monotonically non-decreasing only for emissions that carry no caller-supplied
timestamp entry (as all emitters in this codebase do) and whose server clock
readings are non-decreasing. -/
theorem C3_append_once_default_timestamp (sid rid : String)
    (calls : List EmitCall) (run : RunState) :
    (emit_all sid rid calls run).events
      = run.events
        ++ calls.map (fun c => make_event sid rid c.event_type c.server_ts c.kwargs c.kw_ts)
    ∧ (run.events = [] → (∀ c ∈ calls, c.kw_ts = none) →
        (calls.map EmitCall.server_ts).Pairwise (· ≤ ·) →
        ((emit_all sid rid calls run).events.map Event.timestamp).Pairwise (· ≤ ·)) := by
  constructor
  · rw [emit_all_eq_foldl, foldl_add_event_events]
  · intro hinit hnone hsorted
    rw [emit_all_eq_foldl, foldl_add_event_events, hinit, List.nil_append,
      map_make_event_timestamp sid rid calls hnone]
    exact hsorted

/-- Concrete default-stamped emissions with non-decreasing server clock, for
the C3 witness. -/
def callsC3 : List EmitCall :=
  [{ event_type := "session_start", server_ts := 10, kwargs := [], kw_ts := none },
   { event_type := "llm_response", server_ts := 11,
     kwargs := [("iteration", "1")], kw_ts := none },
   { event_type := "final_answer", server_ts := 11,
     kwargs := [("answer", "42")], kw_ts := none }]

/-- Witness for C3 amended at the concrete emission sequence callsC3. -/
theorem C3_append_once_default_timestamp_witness :
    ((emit_all "s" "r" callsC3 (RunState.init "r" "s" "q" 0)).events.map
        Event.timestamp).Pairwise (· ≤ ·) := by
  have h := C3_append_once_default_timestamp "s" "r" callsC3 (RunState.init "r" "s" "q" 0)
  exact h.2 rfl (by decide) (by decide)

/-- The terminal-kind test of the streaming loop (chat.py): the event type is
final_answer or error. -/
def isTerminal (e : Event) : Bool :=
  e.type == "final_answer" || e.type == "error"

/-- One wire frame produced by the SSE event_generator: a data frame carrying
a log event, or one of the synthesized frames (done, heartbeat, or the
timeout error frame), which are built inline and never written to the log. -/
inductive Wire where
  | ev (e : Event)
  | done
  | heartbeat
  | timeoutError
deriving DecidableEq

/-- The inner for-loop of one polling iteration of event_generator: emit each
new event as a data frame, advancing the cursor; at the first terminal event
emit one synthetic done frame and stop (later events are not read).  Returns
the emitted frames and whether a terminal event was hit. -/
def processNew : List Event → List Wire × Bool
  | [] => ([], false)
  | e :: rest =>
    if isTerminal e then ([Wire.ev e, Wire.done], true)
    else
      let p := processNew rest
      (Wire.ev e :: p.1, p.2)

/-- The event_generator polling loop of chat.py, for a log snapshot that no
longer changes while this coordinator drains it.  Arguments after the log and
the completed flag: the remaining iteration budget (the code runs with
max_retries = 6000), the cursor last_index, and polls_since_heartbeat.  Each
iteration reads the events from the cursor; a terminal event ends the stream
right after its done frame; otherwise, when the run is completed and the
cursor has caught up with the log length, one done frame ends the stream;
otherwise a heartbeat frame is emitted after every 30 consecutive idle
iterations; an exhausted budget emits the synthetic timeout error frame. -/
def event_generator (log : List Event) (completed : Bool) :
    Nat → Nat → Nat → List Wire
  | 0, _, _ => [Wire.timeoutError]
  | fuel + 1, last_index, polls_since_heartbeat =>
    let events := log.drop last_index
    let p := processNew events
    if p.2 then p.1
    else
      let last_index1 := last_index + events.length
      if completed && (log.length == last_index1) then
        p.1 ++ [Wire.done]
      else if !events.isEmpty then
        p.1 ++ event_generator log completed fuel last_index1 0
      else if 30 ≤ polls_since_heartbeat + 1 then
        Wire.heartbeat :: event_generator log completed fuel last_index1 0
      else
        event_generator log completed fuel last_index1 (polls_since_heartbeat + 1)

lemma processNew_first_terminal :
    ∀ (evs : List Event) (m : Nat) (em : Event),
      evs.get? m = some em → isTerminal em = true →
      (∀ i e, i < m → evs.get? i = some e → isTerminal e = false) →
      processNew evs = ((evs.take (m + 1)).map Wire.ev ++ [Wire.done], true) := by
  intro evs
  induction evs with
  | nil => intro m em hm; simp at hm
  | cons e rest ih =>
      intro m em hm hterm hbefore
      cases m with
      | zero =>
          simp at hm
          subst hm
          simp [processNew, hterm]
      | succ m =>
          have he : isTerminal e = false := hbefore 0 e (by omega) rfl
          have hm1 : rest.get? m = some em := by simpa using hm
          have hbefore1 : ∀ i e1, i < m → rest.get? i = some e1 → isTerminal e1 = false := by
            intro i e1 hi hget
            exact hbefore (i + 1) e1 (by omega) (by simpa using hget)
          have hp := ih m em hm1 hterm hbefore1
          simp [processNew, he, hp]

/-- A terminal final_answer event for the C5 theorems. -/
def finalEv : Event :=
  { type := "final_answer", timestamp := 5, session_id := "s", run_id := "r",
    fields := [("answer", "42")] }

/-- The usage_summary event the executor appends after the final answer, for
the C5 counterexample. -/
def usageEv : Event :=
  { type := "usage_summary", timestamp := 6, session_id := "s", run_id := "r",
    fields := [] }

/-- C5 as stated is refuted at a concrete log and cursor.  The real executor
appends a usage_summary event after the final_answer, so a coordinator whose
cursor starts past the terminal event (here cursor 1 on a two-event log of a
completed run) never emits the terminal event: it emits the usage_summary
frame and closes with done through the completed-and-caught-up check. -/
theorem C5_counterexample :
    event_generator [finalEv, usageEv] true 10 1 0 = [Wire.ev usageEv, Wire.done]
    ∧ Wire.ev finalEv ∉ event_generator [finalEv, usageEv] true 10 1 0 := by
  refine ⟨rfl, by decide⟩

lemma count_done_map_ev (evs : List Event) :
    ((evs.map Wire.ev).count Wire.done) = 0 := by
  induction evs with
  | nil => rfl
  | cons e rest ih => simp [List.count_cons, ih]

/-- C5 amended: for every log that has received a terminal (final_answer or
error) event, a coordinator observing it from any cursor at or before the
position of the first remaining terminal event emits, within its very next
polling iteration (any non-zero budget), exactly the log events from the
cursor up to and including that terminal event, immediately followed by
exactly one synthetic done frame, and nothing further: the stream closes. -/
theorem C5_terminal_then_done (log : List Event) (completed : Bool)
    (fuel cursor psh t : Nat) (e : Event)
    (ht : log.get? t = some e) (hterm : isTerminal e = true) (hk : cursor ≤ t)
    (hbefore : ∀ i e1, cursor ≤ i → i < t → log.get? i = some e1 → isTerminal e1 = false) :
    event_generator log completed (fuel + 1) cursor psh
      = ((log.drop cursor).take (t + 1 - cursor)).map Wire.ev ++ [Wire.done]
    ∧ (event_generator log completed (fuel + 1) cursor psh).count Wire.done = 1 := by
  have hdropget : (log.drop cursor).get? (t - cursor) = some e := by
    rw [List.get?_drop]
    have : cursor + (t - cursor) = t := by omega
    rw [this]
    exact ht
  have hdropbefore : ∀ i e1, i < t - cursor →
      (log.drop cursor).get? i = some e1 → isTerminal e1 = false := by
    intro i e1 hi hget
    rw [List.get?_drop] at hget
    exact hbefore (cursor + i) e1 (by omega) (by omega) hget
  have hp := processNew_first_terminal (log.drop cursor) (t - cursor) e
    hdropget hterm hdropbefore
  have heq : event_generator log completed (fuel + 1) cursor psh
      = ((log.drop cursor).take (t + 1 - cursor)).map Wire.ev ++ [Wire.done] := by
    simp only [event_generator]
    rw [hp]
    have : t - cursor + 1 = t + 1 - cursor := by omega
    simp [this]
  refine ⟨heq, ?_⟩
  rw [heq, List.count_append, count_done_map_ev]
  simp

/-- A non-terminal progress event for the C5 witness. -/
def noteEv : Event :=
  { type := "iteration_start", timestamp := 4, session_id := "s", run_id := "r",
    fields := [("iteration", "1")] }

/-- Witness for C5 amended at a concrete two-event log observed from cursor
0 with a budget of one iteration. -/
theorem C5_terminal_then_done_witness :
    event_generator [noteEv, finalEv] true 1 0 0
      = [Wire.ev noteEv, Wire.ev finalEv, Wire.done] := by
  have h := C5_terminal_then_done [noteEv, finalEv] true 0 0 0 1 finalEv rfl (by decide)
    (by omega)
    (fun i e1 hle hlt hget => by
      have hi : i = 0 := by omega
      subst hi
      simp at hget
      subst hget
      decide)
  simpa using h.1
